import Mathlib

/-!
Verification development for the cabot HTTP/1.1 message codec
( `src/request.rs` and `src/response.rs` ).

Modelling conventions:
- Rust byte buffers ( `Vec<u8>` , `&[u8]` ) are `List Nat` with each entry a
  byte value.
- Rust `String` values that flow into the wire output are modelled by their
  UTF-8 bytes where byte-exactness matters; textual fields are Lean `String` s
  and are lowered to bytes with `strBytes` .
- `Result` is `Except` , `Option` is `Option` , `usize` is `Nat` (its parser
  rejects values at or above `2 ^ 64` , as Rust's does via overflow).
- The external `url` crate and the crate's `constants` module are not part of
  the two source files; they are modelled explicitly and each such definition
  says so in its doc comment.
-/

deriving instance DecidableEq for Except

/-- UTF-8 encoding of one scalar value, the standard 1-4 byte form. -/
def charUtf8 (c : Char) : List Nat :=
  let n := c.toNat
  if n < 0x80 then [n]
  else if n < 0x800 then [ 0xC0 + n / 0x40, 0x80 + n % 0x40]
  else if n < 0x10000 then [ 0xE0 + n / 0x1000, 0x80 + n / 0x40 % 0x40, 0x80 + n % 0x40]
  else [ 0xF0 + n / 0x40000, 0x80 + n / 0x1000 % 0x40, 0x80 + n / 0x40 % 0x40, 0x80 + n % 0x40]

/-- The UTF-8 bytes of a Lean string; this is how a Rust `String` or `&str`
value is lowered to wire bytes in this development. -/
def strBytes (s : String) : List Nat :=
  s.data.flatMap charUtf8

theorem strBytes_append (s t : String) : strBytes (s ++ t) = strBytes s ++ strBytes t := by
  simp [strBytes, String.data_append, List.flatMap_append]

/-- Admissible second byte of a 3-byte UTF-8 sequence whose first byte is `b`
(Rust `core::str` validation: `0xE0` and `0xED` have narrowed ranges). -/
def utf8Second3 (b c : Nat) : Bool :=
  if b = 0xE0 then 0xA0 ≤ c ∧ c ≤ 0xBF
  else if b = 0xED then 0x80 ≤ c ∧ c ≤ 0x9F
  else 0x80 ≤ c ∧ c ≤ 0xBF

/-- Admissible second byte of a 4-byte UTF-8 sequence whose first byte is `b`
(Rust `core::str` validation: `0xF0` and `0xF4` have narrowed ranges). -/
def utf8Second4 (b c : Nat) : Bool :=
  if b = 0xF0 then 0x90 ≤ c ∧ c ≤ 0xBF
  else if b = 0xF4 then 0x80 ≤ c ∧ c ≤ 0x8F
  else 0x80 ≤ c ∧ c ≤ 0xBF

/-- Strict UTF-8 validation of a byte list, mirroring Rust's
`str::from_utf8` / `String::from_utf8` validation. `none` means the bytes are
valid; `some (i, el)` mirrors `Utf8Error` with `valid_up_to = i` and
`error_len = el` ( `none` for a sequence cut short by the end of input). -/
def utf8Validate : Nat → List Nat → Option (Nat × Option Nat)
  | _, [] => none
  | i, b :: rest =>
    if b < 0x80 then utf8Validate (i + 1) rest
    else if b < 0xC2 then some (i, some 1)
    else if b ≤ 0xDF then
      match rest with
      | [] => some (i, none)
      | c :: rest2 =>
        if 0x80 ≤ c ∧ c ≤ 0xBF then utf8Validate (i + 2) rest2 else some (i, some 1)
    else if b ≤ 0xEF then
      match rest with
      | [] => some (i, none)
      | c :: rest2 =>
        if utf8Second3 b c then
          match rest2 with
          | [] => some (i, none)
          | d :: rest3 =>
            if 0x80 ≤ d ∧ d ≤ 0xBF then utf8Validate (i + 3) rest3 else some (i, some 2)
        else some (i, some 1)
    else if b ≤ 0xF4 then
      match rest with
      | [] => some (i, none)
      | c :: rest2 =>
        if utf8Second4 b c then
          match rest2 with
          | [] => some (i, none)
          | d :: rest3 =>
            if 0x80 ≤ d ∧ d ≤ 0xBF then
              match rest3 with
              | [] => some (i, none)
              | e :: rest4 =>
                if 0x80 ≤ e ∧ e ≤ 0xBF then utf8Validate (i + 4) rest4 else some (i, some 3)
            else some (i, some 2)
        else some (i, some 1)
    else some (i, some 1)

/-- A byte list is valid UTF-8 when validation reports no error. -/
def validUtf8 (l : List Nat) : Bool :=
  (utf8Validate 0 l).isNone

/-- Display form of a `Utf8Error` , mirroring Rust's `Display for Utf8Error`
(and hence `Display for FromUtf8Error` ). -/
def utf8ErrorDisplay : Nat × Option Nat → String
  | (i, some n) => "invalid utf-8 sequence of " ++ toString n ++ " bytes from index " ++ toString i
  | (i, none) => "incomplete utf-8 byte sequence from index " ++ toString i

/-- Boolean test that the byte pattern `pat` occurs contiguously inside `l` . -/
def containsBytes : List Nat → List Nat → Bool
  | [], pat => List.isPrefixOf pat []
  | a :: t, pat => List.isPrefixOf pat (a :: t) || containsBytes t pat

/-- Modelled from the spec: the parse-error enum of the external `url` crate
(the request builder stores `Result<Url, url::ParseError>` ). Only the
variant produced by the URLs the spec names is distinguished. -/
inductive UrlParseErr where
  | relativeUrlWithoutBase : UrlParseErr
  | otherParseErr (detail : String) : UrlParseErr
deriving DecidableEq

/-- The error enum of `results.rs` as surfaced by the two source modules:
every constructor carries the detail the code formats into it. -/
inductive CabotError where
  | urlParseError (e : UrlParseErr) : CabotError
  | opaqueUrlError (detail : String) : CabotError
  | httpResponseParseError (detail : String) : CabotError
  | encodingError (detail : String) : CabotError
deriving DecidableEq

/-- Modelled from the spec: a parsed URL as the external `url` crate presents
it to `RequestBuilder::build` — scheme, optional host text, whether that host
is a DNS name (the crate's `Host::Domain` ), optional explicit port, path and
optional query string. -/
structure ParsedUrl where
  scheme : String
  host : Option String
  domainHost : Bool
  port : Option Nat
  path : String
  query : Option String
deriving DecidableEq

/-- Modelled from the spec: `Url::domain` — the host text when the host is a
DNS name, `none` for IP literals or absent hosts. -/
def ParsedUrl.domain (u : ParsedUrl) : Option String :=
  if u.domainHost then u.host else none

/-- Modelled from the spec: the `url` crate's table of well-known scheme
default ports, as used by `Url::port_or_known_default` (the spec names 80 for
http and 443 for https). -/
def knownDefaultPort (scheme : String) : Option Nat :=
  if scheme = "http" then some 80
  else if scheme = "https" then some 443
  else if scheme = "ws" then some 80
  else if scheme = "wss" then some 443
  else if scheme = "ftp" then some 21
  else none

/-- Modelled from the spec: `Url::port_or_known_default` — the explicit port
when present, otherwise the scheme's well-known default. -/
def ParsedUrl.portOrKnownDefault (u : ParsedUrl) : Option Nat :=
  match u.port with
  | some p => some p
  | none => knownDefaultPort u.scheme

/-- The parse result of `"http://localhost/"` : named host, default port. -/
def localhostUrl : ParsedUrl :=
  ⟨ "http", some "localhost", true, none, "/", none⟩

/-- The parse result of `"http://127.0.0.1/"` : IPv4 literal host. -/
def ip4Url : ParsedUrl :=
  ⟨ "http", some "127.0.0.1", false, none, "/", none⟩

/-- The parse result of `"http://[::1]/path"` : IPv6 literal host. -/
def ip6Url : ParsedUrl :=
  ⟨ "http", some "[::1]", false, none, "/path", none⟩

/-- Modelled from the spec: the external `url` crate's string parser,
tabulated on the concrete URLs the spec and its scenarios name; every other
input is mapped to the crate's relative-URL-without-base failure, which is
what it returns for the spec's `"not_an_url"` scenario. -/
def parseUrl (s : String) : Except UrlParseErr ParsedUrl :=
  if s = "http://localhost/" then .ok localhostUrl
  else if s = "http://127.0.0.1/" then .ok ip4Url
  else if s = "http://[::1]/path" then .ok ip6Url
  else .error .relativeUrlWithoutBase

/-- Modelled from the spec: `constants::USER_AGENT` lives in the crate's
`constants` module, which is not among the source files; the module doc
example of `request.rs` fixes its value as `cabot/0.1.1` . -/
def USER_AGENT : String :=
  "cabot/0.1.1"

/-- The immutable request value of `request.rs` : connection data plus
everything serialized onto the wire. The body is raw bytes, `none` when no
body was ever set. -/
structure Request where
  host : String
  port : Nat
  authority : String
  is_domain : Bool
  scheme : String
  http_method : String
  request_uri : String
  http_version : String
  headers : List String
  body : Option (List Nat)
deriving DecidableEq

/-- `Request::body_as_string` : `Ok(None)` when no body is present, the
body's own bytes (a Rust `String` reuses the validated buffer) when they are
valid UTF-8, and `EncodingError` otherwise. -/
def Request.body_as_string (r : Request) : Except CabotError (Option (List Nat)) :=
  match r.body with
  | none => .ok none
  | some body =>
    match utf8Validate 0 body with
    | some e => .error (.encodingError ( "Cannot decode utf8: " ++ utf8ErrorDisplay e))
    | none => .ok (some body)

/-- The request line push of `Request::to_string` :
`format!("{} {} {}\r\n", method, uri, version)` . -/
def Request.requestLineBytes (r : Request) : List Nat :=
  strBytes (r.http_method ++ " " ++ r.request_uri ++ " " ++ r.http_version ++ "\r\n")

/-- Rust's `[String]::join` : the pieces interleaved with the separator. -/
def joinSep (sep : String) : List String → String
  | [] => ""
  | [x] => x
  | x :: xs => x ++ sep ++ joinSep sep xs

/-- The header push of `Request::to_string` : when any headers exist, they are
joined with CRLF and a final CRLF is pushed. -/
def Request.headersBytes (r : Request) : List Nat :=
  if r.headers.length > 0 then strBytes (joinSep "\r\n" r.headers) ++ strBytes "\r\n" else []

/-- The conditional Host push of `Request::to_string` : emitted exactly when
`is_domain` holds. -/
def Request.hostBytes (r : Request) : List Nat :=
  if r.is_domain then strBytes ( "Host: " ++ r.host ++ "\r\n") else []

/-- Everything `Request::to_string` pushes before the body framing: request
line, header block, conditional Host line, and `Connection: close` . -/
def Request.wireHead (r : Request) : List Nat :=
  r.requestLineBytes ++ r.headersBytes ++ r.hostBytes ++ strBytes "Connection: close\r\n"

/-- `Request::to_string` , lowered to the UTF-8 bytes of the produced Rust
`String` : after the head, `if let Ok(Some(payload)) = self.body_as_string()`
pushes the Content-Length line, a blank line and the payload bytes, and every
other case (no body, or a body that is not valid UTF-8) pushes only the blank
line. -/
def Request.to_string (r : Request) : List Nat :=
  r.wireHead ++
    (match r.body_as_string with
     | .ok (some payload) =>
       strBytes ( "Content-Length: " ++ toString payload.length ++ "\r\n") ++
         strBytes "\r\n" ++ payload
     | _ => strBytes "\r\n")

/-- The builder of `request.rs` : stores the deferred URL parse result and the
overridable request parts. -/
structure RequestBuilder where
  http_method : String
  user_agent : String
  url : Except UrlParseErr ParsedUrl
  http_version : String
  headers : List String
  body : Option (List Nat)
deriving DecidableEq

/-- `RequestBuilder::new` : parse the URL eagerly, default method `GET` ,
default version `HTTP/1.1` , default user agent, no headers, no body. -/
def RequestBuilder.new (url : String) : RequestBuilder :=
  ⟨ "GET", USER_AGENT, parseUrl url, "HTTP/1.1", [], none⟩

/-- `RequestBuilder::set_url` : replace the stored URL parse result only. -/
def RequestBuilder.set_url (b : RequestBuilder) (url : String) : RequestBuilder :=
  { b with url := parseUrl url }

/-- `RequestBuilder::set_http_method` . -/
def RequestBuilder.set_http_method (b : RequestBuilder) (m : String) : RequestBuilder :=
  { b with http_method := m }

/-- `RequestBuilder::set_http_version` . -/
def RequestBuilder.set_http_version (b : RequestBuilder) (v : String) : RequestBuilder :=
  { b with http_version := v }

/-- `RequestBuilder::add_header` : push one raw header line. -/
def RequestBuilder.add_header (b : RequestBuilder) (h : String) : RequestBuilder :=
  { b with headers := b.headers ++ [h] }

/-- `RequestBuilder::add_headers` : push each given header line in order. -/
def RequestBuilder.add_headers (b : RequestBuilder) (hs : List String) : RequestBuilder :=
  { b with headers := b.headers ++ hs }

/-- `RequestBuilder::set_user_agent` . -/
def RequestBuilder.set_user_agent (b : RequestBuilder) (ua : String) : RequestBuilder :=
  { b with user_agent := ua }

/-- `RequestBuilder::set_body` : copy the byte buffer into the builder. -/
def RequestBuilder.set_body (b : RequestBuilder) (buf : List Nat) : RequestBuilder :=
  { b with body := some buf }

/-- `RequestBuilder::set_body_as_str` : the body is the string's UTF-8 bytes. -/
def RequestBuilder.set_body_as_str (b : RequestBuilder) (s : String) : RequestBuilder :=
  b.set_body (strBytes s)

/-- `RequestBuilder::build` : fail on a failed URL parse, a missing host or an
undeterminable port; otherwise assemble the `Request` with the target built
from path and query, `is_domain` from `Url::domain` , and the synthesized
`User-Agent` line appended after a clone of the accumulated headers. -/
def RequestBuilder.build (b : RequestBuilder) : Except CabotError Request :=
  match b.url with
  | .error err => .error (.urlParseError err)
  | .ok url =>
    match url.host with
    | none => .error (.opaqueUrlError "Unable to find host")
    | some host =>
      match url.portOrKnownDefault with
      | none => .error (.opaqueUrlError "Unable to determine a port")
      | some port =>
        let request_uri := url.path ++
          (match url.query with
           | some querystring => "?" ++ querystring
           | none => "")
        let is_domain := url.domain.isSome
        let headers := b.headers ++ [ "User-Agent: " ++ b.user_agent]
        .ok ⟨host, port, host ++ ":" ++ toString port, is_domain, url.scheme,
          b.http_method, request_uri, b.http_version, headers, b.body⟩

/-- The immutable response value of `response.rs` : the parsed status code,
the retained status-line text, raw header lines and optional body bytes. -/
structure Response where
  status_code : Nat
  status_line : String
  headers : List String
  body : Option (List Nat)
deriving DecidableEq

/-- `Response::body_as_string` : an absent body decodes to the empty string,
present bytes must be valid UTF-8 (the Rust `String` reuses the buffer) and
otherwise fail with `EncodingError` . -/
def Response.body_as_string (r : Response) : Except CabotError (List Nat) :=
  match r.body with
  | none => .ok []
  | some body =>
    match utf8Validate 0 body with
    | some e => .error (.encodingError ( "Cannot decode utf8: " ++ utf8ErrorDisplay e))
    | none => .ok body

/-- One step of splitting at the first space character: the piece before the
space and the remainder after it, or `none` when no space occurs. -/
def splitOnceSpace : List Char → Option (List Char × List Char)
  | [] => none
  | c :: rest =>
    if c = ' ' then some ([], rest)
    else
      match splitOnceSpace rest with
      | none => none
      | some (a, b) => some (c :: a, b)

/-- Rust's `str::splitn(n, " ")` on the character list: at most `n` pieces,
the last piece keeping the remainder verbatim. -/
def splitnSpace : Nat → List Char → List (List Char)
  | 0, _ => []
  | 1, cs => [cs]
  | n + 2, cs =>
    match splitOnceSpace cs with
    | none => [cs]
    | some (a, b) => a :: splitnSpace (n + 1) b

/-- `status_line.splitn(3, " ").collect::<Vec<&str>>()` as strings. -/
def splitn3 (s : String) : List String :=
  (splitnSpace 3 s.data).map String.mk

/-- Boolean string prefix test, Rust's `str::starts_with` . -/
def hasPrefixStr (s p : String) : Bool :=
  List.isPrefixOf p.data s.data

/-- Digit accumulation for `usize::from_str` : every remaining character must
be an ASCII digit. -/
def parseDigits : List Char → Nat → Option Nat
  | [], acc => some acc
  | c :: cs, acc =>
    if '0' ≤ c ∧ c ≤ '9' then parseDigits cs (acc * 10 + (c.toNat - '0'.toNat))
    else none

/-- Rust's `str::parse::<usize>()` : an optional leading plus sign, then one
or more ASCII digits, failing on any other character, on the empty string and
on overflow past the 64-bit range. -/
def parseUsize (s : String) : Option Nat :=
  let cs :=
    match s.data with
    | '+' :: rest => rest
    | cs => cs
  match cs with
  | [] => none
  | _ =>
    match parseDigits cs 0 with
    | some n => if n < 2 ^ 64 then some n else none
    | none => none

/-- The accumulating builder of `response.rs` . -/
structure ResponseBuilder where
  status_line : Option String
  headers : List String
  body : Option (List Nat)
deriving DecidableEq

/-- `ResponseBuilder::new` : empty accumulator. -/
def ResponseBuilder.new : ResponseBuilder :=
  ⟨none, [], none⟩

/-- `ResponseBuilder::set_status_line` : last write wins. -/
def ResponseBuilder.set_status_line (b : ResponseBuilder) (sl : String) : ResponseBuilder :=
  { b with status_line := some sl }

/-- `ResponseBuilder::add_header` : push one raw header line. -/
def ResponseBuilder.add_header (b : ResponseBuilder) (h : String) : ResponseBuilder :=
  { b with headers := b.headers ++ [h] }

/-- `ResponseBuilder::set_body` : copy the byte buffer into the builder. -/
def ResponseBuilder.set_body (b : ResponseBuilder) (buf : List Nat) : ResponseBuilder :=
  { b with body := some buf }

/-- `ResponseBuilder::build` : no status line set is an error; the stored line
is split on at most two spaces; the protocol token is removed and must start
with `HTTP/` (the source spells the detail `Unkown Protocol` ); the code token
stays in the vector and must parse as a `usize` ; the retained status line is
the join of the vector's remaining entries — the code token and the verbatim
remainder — with a space. -/
def ResponseBuilder.build (b : ResponseBuilder) : Except CabotError Response :=
  match b.status_line with
  | none => .error (.httpResponseParseError "No Status Line")
  | some status_line =>
    match splitn3 status_line with
    | [http_version, code, reason] =>
      if hasPrefixStr http_version "HTTP/" = false then
        .error (.httpResponseParseError ( "Unkown Protocol in Status Line: " ++ status_line))
      else
        match parseUsize code with
        | none => .error (.httpResponseParseError ( "Malformed status code: " ++ status_line))
        | some status_code =>
          .ok ⟨status_code, joinSep " " [code, reason], b.headers, b.body⟩
    | _ => .error (.httpResponseParseError ( "Malformed Status Line: " ++ status_line))

set_option maxRecDepth 400000

/-- Sample request: the spec's end-to-end POST scenario after building. -/
def postJsonReq : Request :=
  ⟨ "localhost", 80, "localhost:80", true, "http", "POST", "/", "HTTP/1.1",
    [ "Content-Type: application/json", "User-Agent: cabot/0.1.1"], some [123, 125]⟩

/-- Sample builder with every overridable part set away from its default. -/
def sampleBuilder : RequestBuilder :=
  (((RequestBuilder.new "http://[::1]/path").set_http_method "POST").add_header
    "Accept-Language: fr").set_body [104, 105]

theorem crlfPair : strBytes "\r\n\r\n" = strBytes "\r\n" ++ strBytes "\r\n" := by
  decide

theorem connClosePair :
    strBytes "Connection: close\r\n\r\n" =
      strBytes "Connection: close\r\n" ++ strBytes "\r\n" := by
  decide

/-- Claim C1 (amended): for every `Request` , serialization emits a
Content-Length header exactly when a body is present and its bytes are valid
UTF-8: in that case the output is the head followed by
`Content-Length: <N>\r\n\r\n` followed by exactly the `N` body bytes, `N` the
byte length of the body; a present body that is not valid UTF-8 is serialized
as if absent; with no body the output ends in `Connection: close\r\n\r\n` ,
and the default build from `http://localhost/` contains no Content-Length
text at all. -/
theorem C1_content_length_framing :
    (∀ (r : Request) (bs : List Nat), r.body = some bs → validUtf8 bs = true →
      Request.to_string r =
        r.wireHead ++ strBytes ( "Content-Length: " ++ toString bs.length ++ "\r\n\r\n") ++ bs) ∧
    (∀ (r : Request) (bs : List Nat), r.body = some bs → validUtf8 bs = false →
      Request.to_string r = r.wireHead ++ strBytes "\r\n") ∧
    (∀ r : Request, r.body = none →
      Request.to_string r =
        r.requestLineBytes ++ r.headersBytes ++ r.hostBytes ++
          strBytes "Connection: close\r\n\r\n") ∧
    ((RequestBuilder.new "http://localhost/").build.map Request.to_string =
      .ok (strBytes "GET / HTTP/1.1\r\nUser-Agent: cabot/0.1.1\r\nHost: localhost\r\nConnection: close\r\n\r\n") ∧
      containsBytes
        (strBytes "GET / HTTP/1.1\r\nUser-Agent: cabot/0.1.1\r\nHost: localhost\r\nConnection: close\r\n\r\n")
        (strBytes "Content-Length") = false) := by
  refine ⟨?_, ?_, ?_, by decide, by decide⟩
  · intro r bs hb hv
    have hval : utf8Validate 0 bs = none := Option.isNone_iff_eq_none.mp hv
    simp only [Request.to_string, Request.body_as_string, hb, hval]
    simp [strBytes_append, crlfPair, List.append_assoc]
  · intro r bs hb hv
    cases hval : utf8Validate 0 bs with
    | none => exact absurd hv (by simp [validUtf8, hval])
    | some e => simp [Request.to_string, Request.body_as_string, hb, hval]
  · intro r hb
    simp only [Request.to_string, Request.body_as_string, hb, Request.wireHead]
    simp [connClosePair, List.append_assoc]

/-- Claim C1 counterexample: a request built from `http://localhost/` with
the single non-UTF-8 body byte 255 has a present body, yet its serialization
carries no Content-Length and no body bytes — it is the no-body output. -/
theorem C1_counterexample :
    ((RequestBuilder.new "http://localhost/").set_body [255]).build.map Request.body =
      .ok (some [255]) ∧
    ((RequestBuilder.new "http://localhost/").set_body [255]).build.map Request.to_string =
      .ok (strBytes "GET / HTTP/1.1\r\nUser-Agent: cabot/0.1.1\r\nHost: localhost\r\nConnection: close\r\n\r\n") ∧
    containsBytes
      (strBytes "GET / HTTP/1.1\r\nUser-Agent: cabot/0.1.1\r\nHost: localhost\r\nConnection: close\r\n\r\n")
      (strBytes "Content-Length") = false := by
  exact ⟨by decide, by decide, by decide⟩

/-- Claim C1 witness: the framing equation instantiated at the spec's POST
scenario request, whose two-byte body is valid UTF-8. -/
theorem C1_witness :
    Request.to_string postJsonReq =
      postJsonReq.wireHead ++
        strBytes ( "Content-Length: " ++ toString (List.length [123, 125]) ++ "\r\n\r\n") ++
        [123, 125] :=
  C1_content_length_framing.1 postJsonReq [123, 125] rfl (by decide)

/-- Claim C2 (amended): for every response built from a well-formed status
line, the retained status-line text is the status code and the remainder of
the line rejoined with a single space; building from `HTTP/1.1 200 OK` yields
status code 200 and status-line text `200 OK` — the bare reason phrase `OK`
is not retained on its own. -/
theorem C2_reason_joined :
    (∀ (sl proto code reason : String) (hdrs : List String) (body : Option (List Nat)) (n : Nat),
      splitn3 sl = [proto, code, reason] →
      hasPrefixStr proto "HTTP/" = true →
      parseUsize code = some n →
      ResponseBuilder.build ⟨some sl, hdrs, body⟩ = .ok ⟨n, code ++ " " ++ reason, hdrs, body⟩) ∧
    (ResponseBuilder.new.set_status_line "HTTP/1.1 200 OK").build =
      .ok ⟨200, "200 OK", [], none⟩ := by
  refine ⟨?_, by decide⟩
  intro sl proto code reason hdrs body n h1 h2 h3
  simp [ResponseBuilder.build, h1, h2, h3, joinSep]

/-- Claim C2 counterexample: from the status line `HTTP/1.1 200 OK` the build
succeeds with status code 200, but the reason-bearing text it retains is
`200 OK` , not the claim's bare reason phrase `OK` . -/
theorem C2_counterexample :
    (ResponseBuilder.new.set_status_line "HTTP/1.1 200 OK").build =
      .ok ⟨200, "200 OK", [], none⟩ ∧ ( "200 OK" : String) ≠ "OK" := by
  exact ⟨by decide, by decide⟩

/-- Claim C2 witness: the general equation instantiated on a reason phrase
that itself contains a space. -/
theorem C2_witness :
    ResponseBuilder.build ⟨some "HTTP/1.1 404 Not Found", [], none⟩ =
      .ok ⟨404, "404" ++ " " ++ "Not Found", [], none⟩ :=
  C2_reason_joined.1 "HTTP/1.1 404 Not Found" "HTTP/1.1" "404" "Not Found" [] none 404
    (by decide) (by decide) (by decide)

/-- Claim C3 (amended): `ResponseBuilder::build` fails, returning
`HttpResponseParseError` and never a `Response` , in exactly these cases: no
status line was ever set (detail `No Status Line` ); the line has fewer than
3 single-space-delimited parts (detail `Malformed Status Line: <line>` ); the
first part does not begin with `HTTP/` (detail
`Unkown Protocol in Status Line: <line>` , the source's own spelling); the
second part does not parse as a `usize` (detail
`Malformed status code: <line>` ); in every other case it succeeds. -/
theorem C3_build_error_cases :
    (∀ (hdrs : List String) (body : Option (List Nat)),
      ResponseBuilder.build ⟨none, hdrs, body⟩ =
        .error (.httpResponseParseError "No Status Line")) ∧
    (∀ (b : ResponseBuilder) (sl : String), b.status_line = some sl →
      (splitn3 sl).length ≠ 3 →
      b.build = .error (.httpResponseParseError ( "Malformed Status Line: " ++ sl))) ∧
    (∀ (b : ResponseBuilder) (sl proto code reason : String), b.status_line = some sl →
      splitn3 sl = [proto, code, reason] →
      hasPrefixStr proto "HTTP/" = false →
      b.build = .error (.httpResponseParseError ( "Unkown Protocol in Status Line: " ++ sl))) ∧
    (∀ (b : ResponseBuilder) (sl proto code reason : String), b.status_line = some sl →
      splitn3 sl = [proto, code, reason] →
      hasPrefixStr proto "HTTP/" = true →
      parseUsize code = none →
      b.build = .error (.httpResponseParseError ( "Malformed status code: " ++ sl))) ∧
    (∀ (b : ResponseBuilder) (sl proto code reason : String) (n : Nat), b.status_line = some sl →
      splitn3 sl = [proto, code, reason] →
      hasPrefixStr proto "HTTP/" = true →
      parseUsize code = some n →
      b.build = .ok ⟨n, joinSep " " [code, reason], b.headers, b.body⟩) := by
  refine ⟨?_, ?_, ?_, ?_, ?_⟩
  · intro hdrs body
    simp [ResponseBuilder.build]
  · intro b sl h1 h2
    rcases h3 : splitn3 sl with _ | ⟨p1, _ | ⟨p2, _ | ⟨p3, rest⟩⟩⟩
    · simp [ResponseBuilder.build, h1, h3]
    · simp [ResponseBuilder.build, h1, h3]
    · simp [ResponseBuilder.build, h1, h3]
    · rcases rest with _ | ⟨p4, rest⟩
      · exact (h2 (by rw [h3]; rfl)).elim
      · simp [ResponseBuilder.build, h1, h3]
  · intro b sl proto code reason h1 h2 h3
    simp [ResponseBuilder.build, h1, h2, h3]
  · intro b sl proto code reason h1 h2 h3 h4
    simp [ResponseBuilder.build, h1, h2, h3, h4]
  · intro b sl proto code reason n h1 h2 h3 h4
    simp [ResponseBuilder.build, h1, h2, h3, h4]

/-- Claim C3 counterexample: on the status line `x 200 OK` the build fails
with the detail spelled `Unkown Protocol in Status Line: x 200 OK` , which is
not the claim's `Unknown Protocol in Status Line: x 200 OK` . -/
theorem C3_counterexample :
    (ResponseBuilder.new.set_status_line "x 200 OK").build =
      .error (.httpResponseParseError "Unkown Protocol in Status Line: x 200 OK") ∧
    ( "Unkown Protocol in Status Line: x 200 OK" : String) ≠
      "Unknown Protocol in Status Line: x 200 OK" := by
  exact ⟨by decide, by decide⟩

/-- Claim C3 witness: the unknown-protocol case instantiated on a concrete
non-HTTP status line. -/
theorem C3_witness :
    ResponseBuilder.build ⟨some "FTP/1.1 200 OK", [], none⟩ =
      .error (.httpResponseParseError ( "Unkown Protocol in Status Line: " ++ "FTP/1.1 200 OK")) :=
  C3_build_error_cases.2.2.1 ⟨some "FTP/1.1 200 OK", [], none⟩ "FTP/1.1 200 OK" "FTP/1.1"
    "200" "OK" rfl (by decide) (by decide)

/-- Claim C4: the spec's POST scenario (URL `http://localhost/` , method
`POST` , header `Content-Type: application/json` , two-byte JSON body)
serializes to exactly the expected wire bytes with the default user agent;
generally, built headers are the user headers in call order with the
synthesized `User-Agent` line appended last, and `add_header` / `add_headers`
append in call order. -/
theorem C4_scenario_serialization :
    ((((RequestBuilder.new "http://localhost/").set_http_method "POST").add_header
        "Content-Type: application/json").set_body [123, 125]).build.map Request.to_string =
      .ok (strBytes "POST / HTTP/1.1\r\nContent-Type: application/json\r\nUser-Agent: cabot/0.1.1\r\nHost: localhost\r\nConnection: close\r\nContent-Length: 2\r\n\r\n" ++
        [123, 125]) ∧
    (∀ b : RequestBuilder,
      b.build.map Request.headers =
        b.build.map (fun _ => b.headers ++ [ "User-Agent: " ++ b.user_agent])) ∧
    (∀ (b : RequestBuilder) (h : String), (b.add_header h).headers = b.headers ++ [h]) ∧
    (∀ (b : RequestBuilder) (hs : List String), (b.add_headers hs).headers = b.headers ++ hs) := by
  refine ⟨by decide, ?_, fun b h => rfl, fun b hs => rfl⟩
  intro b
  cases hu : b.url with
  | error e => simp [RequestBuilder.build, hu, Except.map]
  | ok u =>
    cases hh : u.host with
    | none => simp [RequestBuilder.build, hu, hh, Except.map]
    | some h =>
      cases hp : u.portOrKnownDefault with
      | none => simp [RequestBuilder.build, hu, hh, hp, Except.map]
      | some p => simp [RequestBuilder.build, hu, hh, hp, Except.map]

/-- Claim C5: the serialized output carries the `Host: <host>\r\n` line
exactly when `is_domain` holds — structurally, the output is the request
line, the header block, the Host line present exactly under `is_domain` ,
then `Connection: close` and the body framing; a request built from
`http://127.0.0.1/` is built with `is_domain = false` and emits no `Host: `
text, while one built from `http://localhost/` is built with
`is_domain = true` and emits `Host: localhost\r\n` . -/
theorem C5_host_header_iff_named :
    (∀ r : Request,
      Request.to_string r =
        r.requestLineBytes ++ r.headersBytes ++
          (if r.is_domain then strBytes ( "Host: " ++ r.host ++ "\r\n") else []) ++
          (strBytes "Connection: close\r\n" ++
            (match r.body_as_string with
             | .ok (some payload) =>
               strBytes ( "Content-Length: " ++ toString payload.length ++ "\r\n") ++
                 strBytes "\r\n" ++ payload
             | _ => strBytes "\r\n"))) ∧
    ((RequestBuilder.new "http://127.0.0.1/").build.map Request.is_domain = .ok false ∧
      (RequestBuilder.new "http://127.0.0.1/").build.map Request.to_string =
        .ok (strBytes "GET / HTTP/1.1\r\nUser-Agent: cabot/0.1.1\r\nConnection: close\r\n\r\n") ∧
      containsBytes
        (strBytes "GET / HTTP/1.1\r\nUser-Agent: cabot/0.1.1\r\nConnection: close\r\n\r\n")
        (strBytes "Host: ") = false) ∧
    ((RequestBuilder.new "http://localhost/").build.map Request.is_domain = .ok true ∧
      (RequestBuilder.new "http://localhost/").build.map Request.to_string =
        .ok (strBytes "GET / HTTP/1.1\r\nUser-Agent: cabot/0.1.1\r\nHost: localhost\r\nConnection: close\r\n\r\n") ∧
      containsBytes
        (strBytes "GET / HTTP/1.1\r\nUser-Agent: cabot/0.1.1\r\nHost: localhost\r\nConnection: close\r\n\r\n")
        (strBytes "Host: localhost\r\n") = true) := by
  refine ⟨?_, ⟨by decide, by decide, by decide⟩, by decide, by decide, by decide⟩
  intro r
  simp [Request.to_string, Request.wireHead, Request.hostBytes, List.append_assoc]

/-- Claim C6: `RequestBuilder::build` fails, and never yields a partial
request, in exactly these cases: the stored URL did not parse
( `UrlParseError` with the parser's failure), the URL has no host
( `OpaqueUrlError` , `Unable to find host` ), or no port is determinable even
through the scheme's well-known default — 80 for http, 443 for https —
( `OpaqueUrlError` , `Unable to determine a port` ); otherwise it succeeds
with the fully assembled request. -/
theorem C6_build_error_cases :
    (∀ (b : RequestBuilder) (e : UrlParseErr), b.url = .error e →
      b.build = .error (.urlParseError e)) ∧
    (∀ (b : RequestBuilder) (u : ParsedUrl), b.url = .ok u → u.host = none →
      b.build = .error (.opaqueUrlError "Unable to find host")) ∧
    (∀ (b : RequestBuilder) (u : ParsedUrl) (h : String), b.url = .ok u →
      u.host = some h → u.portOrKnownDefault = none →
      b.build = .error (.opaqueUrlError "Unable to determine a port")) ∧
    (∀ (b : RequestBuilder) (u : ParsedUrl) (h : String) (p : Nat), b.url = .ok u →
      u.host = some h → u.portOrKnownDefault = some p →
      b.build = .ok ⟨h, p, h ++ ":" ++ toString p, u.domain.isSome, u.scheme, b.http_method,
        u.path ++ (match u.query with | some q => "?" ++ q | none => ""), b.http_version,
        b.headers ++ [ "User-Agent: " ++ b.user_agent], b.body⟩) ∧
    (∀ u : ParsedUrl, u.port = none → u.portOrKnownDefault = knownDefaultPort u.scheme) ∧
    knownDefaultPort "http" = some 80 ∧ knownDefaultPort "https" = some 443 := by
  refine ⟨?_, ?_, ?_, ?_, ?_, by decide, by decide⟩
  · intro b e h1
    simp [RequestBuilder.build, h1]
  · intro b u h1 h2
    simp [RequestBuilder.build, h1, h2]
  · intro b u h h1 h2 h3
    simp [RequestBuilder.build, h1, h2, h3]
  · intro b u h p h1 h2 h3
    simp [RequestBuilder.build, h1, h2, h3]
  · intro u h1
    simp [ParsedUrl.portOrKnownDefault, h1]

/-- Claim C6 witness: the undeterminable-port case instantiated on a URL with
a scheme outside the well-known-default table and no explicit port. -/
theorem C6_witness :
    RequestBuilder.build
        ⟨ "GET", USER_AGENT, .ok ⟨ "gopher", some "example.com", true, none, "/", none⟩,
          "HTTP/1.1", [], none⟩ =
      .error (.opaqueUrlError "Unable to determine a port") :=
  C6_build_error_cases.2.2.1
    ⟨ "GET", USER_AGENT, .ok ⟨ "gopher", some "example.com", true, none, "/", none⟩,
      "HTTP/1.1", [], none⟩
    ⟨ "gopher", some "example.com", true, none, "/", none⟩ "example.com" rfl rfl (by decide)

/-- Claim C7: `Response::body_as_string` on an absent body returns the empty
string successfully and fails with `EncodingError` on non-UTF-8 bytes, while
`Request::body_as_string` on an absent body returns the distinct no-body
value `Ok(None)` — not the empty string `Ok(Some(""))` that an empty body
yields — and this asymmetry holds for every request and response. -/
theorem C7_body_decoding_asymmetry :
    (∀ r : Response, r.body = none → r.body_as_string = .ok []) ∧
    (∀ (r : Response) (bs : List Nat), r.body = some bs → validUtf8 bs = false →
      ∃ msg, r.body_as_string = .error (.encodingError msg)) ∧
    (∀ r : Request, r.body = none → r.body_as_string = .ok none) ∧
    (∀ r : Request, r.body = some [] → r.body_as_string = .ok (some [])) ∧
    ((.ok none : Except CabotError (Option (List Nat))) ≠ .ok (some [])) := by
  refine ⟨?_, ?_, ?_, ?_, by decide⟩
  · intro r hb
    simp [Response.body_as_string, hb]
  · intro r bs hb hv
    cases hval : utf8Validate 0 bs with
    | none => exact absurd hv (by simp [validUtf8, hval])
    | some e =>
      exact ⟨ "Cannot decode utf8: " ++ utf8ErrorDisplay e,
        by simp [Response.body_as_string, hb, hval]⟩
  · intro r hb
    simp [Request.body_as_string, hb]
  · intro r hb
    simp [Request.body_as_string, hb, utf8Validate]

/-- Claim C7 witness: the empty-string result on a concrete bodiless
response, and the no-body result on a concrete bodiless request. -/
theorem C7_witness :
    Response.body_as_string ⟨200, "200 OK", [], none⟩ = .ok [] ∧
    Request.body_as_string
        ⟨ "localhost", 80, "localhost:80", true, "http", "GET", "/", "HTTP/1.1", [], none⟩ =
      .ok none :=
  ⟨C7_body_decoding_asymmetry.1 ⟨200, "200 OK", [], none⟩ rfl,
    C7_body_decoding_asymmetry.2.2.1
      ⟨ "localhost", 80, "localhost:80", true, "http", "GET", "/", "HTTP/1.1", [], none⟩ rfl⟩

/-- Claim C8: `build` is idempotent and side-effect-free — the builder is
taken immutably, so repeated builds agree and each one appends exactly one
synthesized `User-Agent` line to a clone of the stored headers; `set_url`
replaces only the stored URL parse result, and building after `set_url`
yields a request reflecting the new URL with the previously set method,
version, user agent, headers and body unchanged. -/
theorem C8_builder_reuse :
    (∀ b : RequestBuilder, b.build = b.build) ∧
    (∀ (b : RequestBuilder) (u : String),
      (b.set_url u).http_method = b.http_method ∧
      (b.set_url u).http_version = b.http_version ∧
      (b.set_url u).user_agent = b.user_agent ∧
      (b.set_url u).headers = b.headers ∧
      (b.set_url u).body = b.body ∧
      (b.set_url u).url = parseUrl u) ∧
    (∀ b : RequestBuilder,
      b.build.map Request.headers =
        b.build.map (fun _ => b.headers ++ [ "User-Agent: " ++ b.user_agent])) ∧
    (∀ (b : RequestBuilder) (u : String) (pu : ParsedUrl) (h : String) (p : Nat),
      parseUrl u = .ok pu → pu.host = some h → pu.portOrKnownDefault = some p →
      (b.set_url u).build = .ok ⟨h, p, h ++ ":" ++ toString p, pu.domain.isSome, pu.scheme,
        b.http_method, pu.path ++ (match pu.query with | some q => "?" ++ q | none => ""),
        b.http_version, b.headers ++ [ "User-Agent: " ++ b.user_agent], b.body⟩) := by
  refine ⟨fun b => rfl, fun b u => ⟨rfl, rfl, rfl, rfl, rfl, rfl⟩, ?_, ?_⟩
  · intro b
    cases hu : b.url with
    | error e => simp [RequestBuilder.build, hu, Except.map]
    | ok u =>
      cases hh : u.host with
      | none => simp [RequestBuilder.build, hu, hh, Except.map]
      | some h =>
        cases hp : u.portOrKnownDefault with
        | none => simp [RequestBuilder.build, hu, hh, hp, Except.map]
        | some p => simp [RequestBuilder.build, hu, hh, hp, Except.map]
  · intro b u pu h p h1 h2 h3
    simp [RequestBuilder.build, RequestBuilder.set_url, h1, h2, h3]

/-- Claim C8 witness: reusing a fully customised builder with a new URL and
building again reflects only the new URL; method, version, headers, body and
the single user-agent line are carried over. -/
theorem C8_witness :
    (sampleBuilder.set_url "http://localhost/").build =
      .ok ⟨ "localhost", 80, "localhost:80", true, "http", "POST", "/", "HTTP/1.1",
        [ "Accept-Language: fr", "User-Agent: cabot/0.1.1"], some [104, 105]⟩ :=
  C8_builder_reuse.2.2.2 sampleBuilder "http://localhost/" localhostUrl "localhost" 80
    (by decide) (by decide) (by decide)

/-- Claim C9: a status line of exactly a protocol token and a code with no
trailing space splits into only 2 parts and is rejected as malformed, while
the same line with a trailing space splits into 3 parts — the third empty —
and builds successfully with status code 200 and an empty reason phrase
(retained status-line text `200 ` , the code joined with the empty
remainder). -/
theorem C9_trailing_space_reason :
    (ResponseBuilder.new.set_status_line "HTTP/1.1 200").build =
      .error (.httpResponseParseError "Malformed Status Line: HTTP/1.1 200") ∧
    splitn3 "HTTP/1.1 200" = [ "HTTP/1.1", "200"] ∧
    (ResponseBuilder.new.set_status_line "HTTP/1.1 200 ").build =
      .ok ⟨200, "200 ", [], none⟩ ∧
    splitn3 "HTTP/1.1 200 " = [ "HTTP/1.1", "200", ""] ∧
    ( "200 " : String) = "200" ++ " " ++ "" := by
  exact ⟨by decide, by decide, by decide, by decide, by decide⟩

/-- Claim C10: `set_body` with the empty byte sequence yields a builder (and
a built request) whose body is present but empty — distinct from the absent
body of a fresh builder — and the serialization emits `Content-Length: 0`
followed by the blank line and no body bytes. -/
theorem C10_empty_body :
    (∀ b : RequestBuilder, (b.set_body []).body = some []) ∧
    (∀ b : RequestBuilder,
      (b.set_body []).build.map Request.body =
        (b.set_body []).build.map (fun _ => some [])) ∧
    (∀ r : Request, r.body = some [] →
      Request.to_string r = r.wireHead ++ strBytes "Content-Length: 0\r\n\r\n") ∧
    (RequestBuilder.new "http://localhost/").body = none ∧
    (some ([] : List Nat) ≠ none) ∧
    ((RequestBuilder.new "http://localhost/").set_body []).build.map Request.to_string =
      .ok (strBytes "GET / HTTP/1.1\r\nUser-Agent: cabot/0.1.1\r\nHost: localhost\r\nConnection: close\r\nContent-Length: 0\r\n\r\n") := by
  refine ⟨fun b => rfl, ?_, ?_, rfl, by decide, by decide⟩
  · intro b
    cases hu : b.url with
    | error e => simp [RequestBuilder.build, RequestBuilder.set_body, hu, Except.map]
    | ok u =>
      cases hh : u.host with
      | none => simp [RequestBuilder.build, RequestBuilder.set_body, hu, hh, Except.map]
      | some h =>
        cases hp : u.portOrKnownDefault with
        | none => simp [RequestBuilder.build, RequestBuilder.set_body, hu, hh, hp, Except.map]
        | some p => simp [RequestBuilder.build, RequestBuilder.set_body, hu, hh, hp, Except.map]
  · intro r hb
    simp only [Request.to_string, Request.body_as_string, hb, utf8Validate]
    congr 1

/-- Claim C10 witness: the Content-Length-0 framing instantiated at the POST
scenario request with its body replaced by the present-but-empty body. -/
theorem C10_witness :
    Request.to_string
        ⟨ "localhost", 80, "localhost:80", true, "http", "POST", "/", "HTTP/1.1",
          [ "Content-Type: application/json", "User-Agent: cabot/0.1.1"], some []⟩ =
      Request.wireHead
          ⟨ "localhost", 80, "localhost:80", true, "http", "POST", "/", "HTTP/1.1",
            [ "Content-Type: application/json", "User-Agent: cabot/0.1.1"], some []⟩ ++
        strBytes "Content-Length: 0\r\n\r\n" :=
  C10_empty_body.2.2.1
    ⟨ "localhost", 80, "localhost:80", true, "http", "POST", "/", "HTTP/1.1",
      [ "Content-Type: application/json", "User-Agent: cabot/0.1.1"], some []⟩ rfl
